import Mathlib

/-!
Shallow embedding of `src/main.py`, a FastAPI service that imports image
files from a shared folder, moves them into a `storage` directory and
records one metadata row per accepted file in an `images` table.

External effects (the `gdown` download helper, `mimetypes.guess_type`,
`os.path.getsize`, `shutil.move`, the database driver, `uuid`, the clock)
are modelled by an environment record `Env`; which library calls raise is
part of that environment.  Python exceptions are modelled with `Except`,
and FastAPI `HTTPException(status_code, detail)` by the `Exc.http`
constructor.  `HTTPException` subclasses `Exception`, so a blanket
`except Exception` clause catches it; the embedding reproduces that.

String handling mirrors the Python methods on the ASCII range (which is
all the source exercises): `str.lower` / `str.endswith` / `str.startswith`
/ `str.strip` are implemented over `String.data` so terms evaluate inside
the kernel.
-/

/-- ASCII lowercasing of one character, as Python `str.lower` acts on ASCII. -/
def asciiLower (c : Char) : Char :=
  if 65 ≤ c.toNat && c.toNat ≤ 90 then Char.ofNat (c.toNat + 32) else c

/-- Model of Python `file.lower()` (ASCII range). -/
def lowerName (s : String) : List Char := s.data.map asciiLower

/-- Allowed extensions, the `valid_extensions` tuple of line 63 of
`src/main.py`: `.jpg`, `.png`, `.gif`, `.jpeg`. -/
def valid_extensions : List String := [".jpg", ".png", ".gif", ".jpeg"]

/-- Model of `file.lower().endswith(valid_extensions)` (line 66): Python
`endswith` with a tuple succeeds when any listed suffix matches. -/
def extOk (file : String) : Bool :=
  valid_extensions.any (fun ext => List.isSuffixOf ext.data (lowerName file))

/-- Python whitespace characters stripped by `str.strip()`. -/
def isSpaceChar (c : Char) : Bool :=
  c == ' ' || c == '\t' || c == '\n' || c == '\r' ||
  c == Char.ofNat 11 || c == Char.ofNat 12

/-- Model of `not file.strip()`: true when the name is all whitespace. -/
def stripEmpty (s : String) : Bool := s.data.all isSpaceChar

/-- The filename sanity check of line 71: the name is rejected when it starts
with a dot, equals one of the literals `main.py`, `main.` or the empty
string, or strips to nothing. -/
def badName (file : String) : Bool :=
  List.isPrefixOf ['.'] file.data ||
  file == "main.py" || file == "main." || file == "" || stripEmpty file

/-- Model of line 85, testing whether `mime_type` starts with `image/`. -/
def startsWithImage (m : String) : Bool :=
  List.isPrefixOf "image/".data m.data

/-- One row of the `images` table (schema at line 94):
`images(id, name, google_drive_id, size, mime_type, storage_path, imported_at)`. -/
structure ImageRow where
  id : String
  name : String
  google_drive_id : String
  size : Nat
  mime_type : String
  storage_path : String
  imported_at : Nat
deriving DecidableEq, Repr

/-- Environment of one request: results of the external library calls keyed
by filename, and which per-file calls raise an exception. -/
structure Env where
  /-- result of `mimetypes.guess_type` for this filename (`none` = Python `None`). -/
  sniff : String → Option String
  /-- result of `os.path.getsize` when it succeeds. -/
  fsize : String → Nat
  /-- whether `os.path.getsize` raises for this file. -/
  sizeFail : String → Bool
  /-- whether `shutil.move` raises for this file (no effect when it raises). -/
  moveFail : String → Bool
  /-- whether the `INSERT`/`commit` pair raises for this file. -/
  insertFail : String → Bool
  /-- `str(uuid.uuid4())` drawn for this file. -/
  genId : String → String
  /-- `datetime.datetime.now()` of the request. -/
  now : Nat

/-- A Python exception: FastAPI `HTTPException(status, detail)` or any other
exception carrying its message. -/
inductive Exc where
  | http (status : Nat) (detail : String)
  | generic (msg : String)
deriving DecidableEq, Repr

/-- Model of Python `str(e)`; Starlette renders an `HTTPException` as the
status code, a colon and a space, then the detail text. -/
def strOfExc : Exc → String
  | .http s d => Nat.repr s ++ ": " ++ d
  | .generic m => m

/-- HTTP status of a handler outcome: 200 on a normal return, the carried
status for an `HTTPException`, 500 for any other escaping exception. -/
def respStatus {α : Type} : Except Exc α → Nat
  | .ok _ => 200
  | .error (.http s _) => s
  | .error (.generic _) => 500

/-- State of the per-file loop of `import_images` (lines 62-102):
contents of the `storage` directory (filenames), the `images` table, and
the local `imported_count`. -/
structure LoopSt where
  storage : List String
  rows : List ImageRow
  imported_count : Nat
deriving DecidableEq, Repr

/-- Externally visible state: the `storage` directory, the `images` table and
the contents of the staging directory `downloads`. -/
structure SysSt where
  storage : List String
  rows : List ImageRow
  staging : List String
deriving DecidableEq, Repr

/-- `temp_dir = "downloads"` (line 54): the staging path is a fixed constant
shared by every request. -/
def temp_dir : String := "downloads"

/-- `dest_path = os.path.join("storage", file)` (line 76). -/
def dest_path (file : String) : String := "storage/" ++ file

/-- One iteration of the `for file in files` body (lines 65-102).
Skips mirror the `continue` statements; the inner `try`/`except` (lines
82-102) catches any per-file exception, keeping the effects performed so
far — in particular a completed `shutil.move` (line 91) persists when the
subsequent `INSERT`/`commit` (lines 93-97) raises. -/
def processFile (env : Env) (s : LoopSt) (file : String) : LoopSt :=
  if !extOk file then s
  else if badName file then s
  else if file ∈ s.storage then s
  else if env.sizeFail file then s
  else
    let file_size := env.fsize file
    match env.sniff file with
    | none => s
    | some mime_type =>
      if !startsWithImage mime_type then s
      else if env.moveFail file then s
      else
        let moved : LoopSt := { s with storage := s.storage ++ [file] }
        if env.insertFail file then moved
        else
          { moved with
            rows := moved.rows ++
              [{ id := env.genId file, name := file, google_drive_id := file,
                 size := file_size, mime_type := mime_type,
                 storage_path := dest_path file, imported_at := env.now }],
            imported_count := moved.imported_count + 1 }

/-- The whole `os.walk` loop (lines 64-102) over the walked filenames. -/
def loopRun (env : Env) (files : List String) (s : LoopSt) : LoopSt :=
  files.foldl (processFile env) s

/-- The success payload of line 106, the f-string interpolating
`imported_count` between the words `Imported` and `images successfully`. -/
def importMessage (n : Nat) : String :=
  "Imported " ++ Nat.repr n ++ " images successfully"

/-- Body of the `try` block of `import_images` (lines 53-106).  `dl` is the
result of `gdown.download_folder`: `none` models a `None` return (the
folder did not resolve; nothing new lands in staging), `some newFiles` the
downloaded filenames, merged into whatever `downloads` already held.  On
the `None` path line 60 raises `HTTPException(400, ...)`; on success the
walk processes every staged file and line 104 removes the staging
directory (`shutil.rmtree`). -/
def importBody (env : Env) (dl : Option (List String)) (st : SysSt) :
    SysSt × Except Exc String :=
  match dl with
  | none => (st, .error (.http 400 "Invalid public Google Drive folder URL"))
  | some newFiles =>
    let fin := loopRun env (st.staging ++ newFiles) ⟨st.storage, st.rows, 0⟩
    (⟨fin.storage, fin.rows, []⟩, .ok (importMessage fin.imported_count))

/-- The `POST /import` handler (lines 49-113).  The blanket
`except Exception as e: raise HTTPException(status_code=500, detail=str(e))`
(lines 108-110) catches every exception escaping the body — including the
`HTTPException(400)` of line 60, since `HTTPException` subclasses
`Exception` — and re-raises it with status 500. -/
def import_images (env : Env) (dl : Option (List String)) (st : SysSt) :
    SysSt × Except Exc String :=
  match importBody env dl st with
  | (st', .ok msg) => (st', .ok msg)
  | (st', .error e) => (st', .error (.http 500 (strOfExc e)))

/-- What `FileResponse(row[1], media_type=row[2], filename=row[0])` exposes
(line 142). -/
structure FileResp where
  path : String
  media_type : String
  filename : String
deriving DecidableEq, Repr

/-- Body of the `try` block of `get_image` (lines 137-144): `SELECT ... WHERE
id = %s` with `fetchone`, `FileResponse` when a row matches, otherwise
`raise HTTPException(404, "Image not found")`. -/
def get_image_body (rows : List ImageRow) (image_id : String) :
    Except Exc FileResp :=
  match rows.find? (fun r => r.id == image_id) with
  | some r => .ok ⟨r.storage_path, r.mime_type, r.name⟩
  | none => .error (.http 404 "Image not found")

/-- The get-by-id route handler `get_image` (lines 133-150).  As in the
handler above, the blanket `except Exception` clause (lines 145-147)
catches the 404 `HTTPException` raised by this very handler and re-raises
it with status 500.  The first component is the `images` table after the
request (a `SELECT` never modifies it). -/
def get_image (rows : List ImageRow) (image_id : String) :
    List ImageRow × Except Exc FileResp :=
  match get_image_body rows image_id with
  | .ok r => (rows, .ok r)
  | .error e =>
    (rows, .error (.http 500 ("Error serving image: " ++ strOfExc e)))

/-- The `GET /images` handler (lines 116-130): `SELECT * FROM images`,
returning every row; the table is unchanged. -/
def list_images (rows : List ImageRow) : List ImageRow × List ImageRow :=
  (rows, rows)

/-- The accept condition of line 85, as the code computes it: the MIME
library returned a type and it starts with `image/`. -/
def sniffOk (env : Env) (file : String) : Bool :=
  match env.sniff file with
  | none => false
  | some m => startsWithImage m

-- sanity checks on small concrete inputs
example : extOk "a.JPG" = true := by decide
example : extOk "b.txt" = false := by decide
example : badName ".hidden.jpg" = true := by decide
example : badName "a.jpg" = false := by decide
example : startsWithImage "image/png" = true := by decide
example : startsWithImage "text/plain" = false := by decide

/-! Helper lemmas about the per-file step and the walk loop. -/

theorem loopRun_nil (env : Env) (s : LoopSt) : loopRun env [] s = s := rfl

theorem loopRun_cons (env : Env) (g : String) (rest : List String) (s : LoopSt) :
    loopRun env (g :: rest) s = loopRun env rest (processFile env s g) := rfl

/-- The per-file step only ever appends to the storage listing. -/
theorem processFile_storage_append (env : Env) (s : LoopSt) (f : String) :
    ∃ t, (processFile env s f).storage = s.storage ++ t := by
  unfold processFile
  repeat' split
  all_goals first
    | exact ⟨[], (List.append_nil _).symm⟩
    | exact ⟨[f], rfl⟩

/-- The per-file step only ever appends to the images table. -/
theorem processFile_rows_append (env : Env) (s : LoopSt) (f : String) :
    ∃ t, (processFile env s f).rows = s.rows ++ t := by
  unfold processFile
  repeat' split
  all_goals first
    | exact ⟨[], (List.append_nil _).symm⟩
    | exact ⟨_, rfl⟩

/-- A file with a disallowed extension is skipped with no effect (line 66). -/
theorem processFile_skip_extBad (env : Env) (s : LoopSt) (f : String)
    (h : extOk f = false) : processFile env s f = s := by
  simp [processFile, h]

/-- A file already present in storage is skipped with no effect (line 78). -/
theorem processFile_skip_dup (env : Env) (s : LoopSt) (f : String)
    (h : f ∈ s.storage) : processFile env s f = s := by
  unfold processFile
  by_cases h1 : extOk f
  · simp [h1, h]
  · simp [h1]

/-- A file whose MIME lookup yields nothing or a non-`image/` type is
skipped with no effect (lines 84-87). -/
theorem processFile_skip_sniffBad (env : Env) (s : LoopSt) (f : String)
    (h : sniffOk env f = false) : processFile env s f = s := by
  unfold processFile
  repeat' split
  all_goals first
    | rfl
    | (exfalso; simp_all [sniffOk])

/-- Processing a different file neither touches the copies of `f` in storage
nor the rows named `f`. -/
theorem processFile_other (env : Env) (s : LoopSt) (g f : String)
    (hne : g ≠ f) :
    (processFile env s g).storage.count f = s.storage.count f ∧
      (processFile env s g).rows.filter (fun r => r.name == f)
        = s.rows.filter (fun r => r.name == f) := by
  unfold processFile
  repeat' split
  all_goals refine ⟨?_, ?_⟩
  all_goals first
    | rfl
    | simp [List.count_append, List.filter_append, List.count_eq_zero,
            Ne.symm hne, hne]

/-- A file the step always skips stays untouched through the whole walk:
the copies of `f` in storage and the rows named `f` are unchanged. -/
theorem loopRun_preserve_skip (env : Env) (f : String)
    (hskip : ∀ s, processFile env s f = s) :
    ∀ (files : List String) (s : LoopSt),
      (loopRun env files s).storage.count f = s.storage.count f ∧
        (loopRun env files s).rows.filter (fun r => r.name == f)
          = s.rows.filter (fun r => r.name == f) := by
  intro files
  induction files with
  | nil => intro s; exact ⟨rfl, rfl⟩
  | cons g rest ih =>
    intro s
    rw [loopRun_cons]
    by_cases hg : g = f
    · subst hg
      rw [hskip s]
      exact ih s
    · obtain ⟨ha, hb⟩ := ih (processFile env s g)
      obtain ⟨hc, hd⟩ := processFile_other env s g f hg
      exact ⟨ha.trans hc, hb.trans hd⟩

/-- A filename already present in storage survives the whole walk untouched:
it stays in storage, its multiplicity is unchanged, and no row named after
it is added. -/
theorem loopRun_preserve_mem (env : Env) (f : String) :
    ∀ (files : List String) (s : LoopSt), f ∈ s.storage →
      f ∈ (loopRun env files s).storage ∧
        (loopRun env files s).storage.count f = s.storage.count f ∧
        (loopRun env files s).rows.filter (fun r => r.name == f)
          = s.rows.filter (fun r => r.name == f) := by
  intro files
  induction files with
  | nil => intro s hf; exact ⟨hf, rfl, rfl⟩
  | cons g rest ih =>
    intro s hf
    rw [loopRun_cons]
    by_cases hg : g = f
    · subst hg
      rw [processFile_skip_dup env s g hf]
      exact ih s hf
    · have hmem : f ∈ (processFile env s g).storage := by
        obtain ⟨t, ht⟩ := processFile_storage_append env s g
        rw [ht]
        exact List.mem_append.mpr (Or.inl hf)
      obtain ⟨ha, hb, hc⟩ := ih (processFile env s g) hmem
      obtain ⟨hd, he⟩ := processFile_other env s g f hg
      exact ⟨ha, hb.trans hd, hc.trans he⟩

/-- Storage membership is monotone across the walk. -/
theorem loopRun_storage_mono (env : Env) (f : String) :
    ∀ (files : List String) (s : LoopSt), f ∈ s.storage →
      f ∈ (loopRun env files s).storage := by
  intro files s hf
  exact (loopRun_preserve_mem env f files s hf).1

/-- The walk only appends to the images table. -/
theorem loopRun_rows_append (env : Env) :
    ∀ (files : List String) (s : LoopSt),
      ∃ t, (loopRun env files s).rows = s.rows ++ t := by
  intro files
  induction files with
  | nil => intro s; exact ⟨[], (List.append_nil _).symm⟩
  | cons g rest ih =>
    intro s
    rw [loopRun_cons]
    obtain ⟨t1, h1⟩ := processFile_rows_append env s g
    obtain ⟨t2, h2⟩ := ih (processFile env s g)
    exact ⟨t1 ++ t2, by rw [h2, h1, List.append_assoc]⟩

/-- Each step grows the table by exactly as many rows as it adds to the
count: the row append and the `imported_count += 1` happen together
(lines 93-98). -/
theorem processFile_rows_length (env : Env) (s : LoopSt) (f : String) :
    (processFile env s f).rows.length + s.imported_count
      = s.rows.length + (processFile env s f).imported_count := by
  unfold processFile
  repeat' split
  all_goals simp +arith

/-- When the `INSERT`/`commit` pair cannot fail, each step grows storage by
exactly as many files as it adds to the count. -/
theorem processFile_storage_length (env : Env) (s : LoopSt) (f : String)
    (h : env.insertFail f = false) :
    (processFile env s f).storage.length + s.imported_count
      = s.storage.length + (processFile env s f).imported_count := by
  unfold processFile
  repeat' split
  all_goals simp_all +arith

/-- Over the whole walk, rows added equals count gained. -/
theorem loopRun_rows_length (env : Env) :
    ∀ (files : List String) (s : LoopSt),
      (loopRun env files s).rows.length + s.imported_count
        = s.rows.length + (loopRun env files s).imported_count := by
  intro files
  induction files with
  | nil => intro s; rfl
  | cons g rest ih =>
    intro s
    rw [loopRun_cons]
    have h1 := processFile_rows_length env s g
    have h2 := ih (processFile env s g)
    omega

/-- Over the whole walk, when no insert can fail, files added to storage
equals count gained. -/
theorem loopRun_storage_length (env : Env)
    (hins : ∀ f, env.insertFail f = false) :
    ∀ (files : List String) (s : LoopSt),
      (loopRun env files s).storage.length + s.imported_count
        = s.storage.length + (loopRun env files s).imported_count := by
  intro files
  induction files with
  | nil => intro s; rfl
  | cons g rest ih =>
    intro s
    rw [loopRun_cons]
    have h1 := processFile_storage_length env s g (hins g)
    have h2 := ih (processFile env s g)
    omega

/-- A file that passes every check and whose `shutil.move` succeeds lands in
storage, whether or not the subsequent insert succeeds (line 91 runs before
lines 93-97). -/
theorem processFile_storage_accept (env : Env) (s : LoopSt) (f : String)
    (h1 : extOk f = true) (h2 : badName f = false) (h3 : f ∉ s.storage)
    (h4 : env.sizeFail f = false) (m : String) (h5 : env.sniff f = some m)
    (h6 : startsWithImage m = true) (h7 : env.moveFail f = false) :
    (processFile env s f).storage = s.storage ++ [f] := by
  by_cases h8 : env.insertFail f = true <;>
    simp [processFile, h1, h2, h3, h4, h5, h6, h7, h8]

/-- A file that passes every check and suffers no library failure ends up in
storage after the walk, wherever it occurs in the walked list. -/
theorem loopRun_good_mem (env : Env) (f : String)
    (h2 : extOk f = true) (h3 : badName f = false)
    (h4 : env.sizeFail f = false) (h5 : sniffOk env f = true)
    (h6 : env.moveFail f = false) :
    ∀ (files : List String) (s : LoopSt), f ∈ files →
      f ∈ (loopRun env files s).storage := by
  obtain ⟨m, hm, hmi⟩ : ∃ m, env.sniff f = some m ∧ startsWithImage m = true := by
    unfold sniffOk at h5
    cases he : env.sniff f with
    | none => rw [he] at h5; exact absurd h5 (by simp)
    | some m => rw [he] at h5; exact ⟨m, rfl, h5⟩
  intro files
  induction files with
  | nil => intro s hf; cases hf
  | cons g rest ih =>
    intro s hf
    rw [loopRun_cons]
    rcases List.mem_cons.mp hf with hfg | hfr
    · subst hfg
      by_cases hmem : f ∈ s.storage
      · rw [processFile_skip_dup env s f hmem]
        exact loopRun_storage_mono env f rest _ hmem
      · have hst := processFile_storage_accept env s f h2 h3 hmem h4 m hm hmi h6
        have hin : f ∈ (processFile env s f).storage := by rw [hst]; simp
        exact loopRun_storage_mono env f rest _ hin
    · exact ih (processFile env s g) hfr

/-! Claim theorems. -/

/-- Claim C1 (code bug): when the download helper returns no result, the
handler responds with HTTP 500, not the client-error 400 the spec states.
Line 60 does raise `HTTPException(400, "Invalid public Google Drive folder
URL")`, but the blanket `except Exception` of lines 108-110 catches that
very exception (it subclasses `Exception`) and re-raises it with
status 500, so every failed folder fetch surfaces as a server error. -/
theorem import_invalid_folder_status_500 (env : Env) (st : SysSt) :
    respStatus (import_images env none st).snd = 500 := rfl

/-- Claim C2 (code bug): looking up an id that matches no row responds with
HTTP 500, not 404.  Line 144 raises `HTTPException(404, "Image not
found")`, but the `except Exception` of lines 145-147 catches it and
re-raises it as a 500 with detail `"Error serving image: ..."`. -/
theorem get_image_missing_id_status_500 (rows : List ImageRow)
    (image_id : String) (h : ∀ r ∈ rows, r.id ≠ image_id) :
    respStatus (get_image rows image_id).snd = 500 := by
  have hfind : rows.find? (fun r => r.id == image_id) = none := by
    rw [List.find?_eq_none]
    intro r hr
    simp [h r hr]
  simp [get_image, get_image_body, hfind, respStatus]

/-- Witness for C2 at a concrete input: the empty table holds no row with id
`"missing"`, and the handler answers 500. -/
theorem get_image_missing_id_status_500_witness :
    (∀ r ∈ ([] : List ImageRow), r.id ≠ "missing") ∧
      respStatus (get_image [] "missing").snd = 500 :=
  ⟨by simp, get_image_missing_id_status_500 [] "missing" (by simp)⟩

/-- Claim C3 (confirmed): a staged file whose MIME lookup does not yield an
`image/` type is never accepted, whatever its extension: after the import
call its multiplicity in storage is unchanged (it was not moved in) and the
rows named after it are exactly the old ones (none was inserted). -/
theorem import_never_accepts_non_image_mime (env : Env)
    (dl : Option (List String)) (st : SysSt) (f : String)
    (h : sniffOk env f = false) :
    (import_images env dl st).fst.storage.count f = st.storage.count f ∧
      (import_images env dl st).fst.rows.filter (fun r => r.name == f)
        = st.rows.filter (fun r => r.name == f) := by
  cases dl with
  | none => exact ⟨rfl, rfl⟩
  | some files =>
    have hskip : ∀ s, processFile env s f = s :=
      fun s => processFile_skip_sniffBad env s f h
    exact loopRun_preserve_skip env f hskip (st.staging ++ files)
      ⟨st.storage, st.rows, 0⟩

/-- Environment for the C3 witness: every MIME lookup answers `text/plain`,
no library call fails. -/
def textMimeEnv : Env :=
  ⟨fun _ => some "text/plain", fun _ => 10, fun _ => false, fun _ => false,
   fun _ => false, fun f => "id-" ++ f, 7⟩

/-- Witness for C3: importing `c.png` (allowed extension, MIME `text/plain`)
into an empty system accepts nothing. -/
theorem import_never_accepts_non_image_mime_witness :
    sniffOk textMimeEnv "c.png" = false ∧
      ((import_images textMimeEnv (some ["c.png"])
            ⟨[], [], []⟩).fst.storage.count "c.png"
          = (⟨[], [], []⟩ : SysSt).storage.count "c.png" ∧
        (import_images textMimeEnv (some ["c.png"])
            ⟨[], [], []⟩).fst.rows.filter (fun r => r.name == "c.png")
          = (⟨[], [], []⟩ : SysSt).rows.filter (fun r => r.name == "c.png")) :=
  ⟨by decide,
   import_never_accepts_non_image_mime textMimeEnv (some ["c.png"])
     ⟨[], [], []⟩ "c.png" (by decide)⟩

/-- Environment for the C4 counterexample: MIME lookups answer `image/jpeg`
and the `INSERT`/`commit` pair raises for every file, while `shutil.move`
succeeds. -/
def insertFailEnv : Env :=
  ⟨fun _ => some "image/jpeg", fun _ => 100, fun _ => false, fun _ => false,
   fun _ => true, fun f => "id-" ++ f, 7⟩

/-- Counterexample to claim C4 as stated: importing `a.jpg` into an empty
system when the insert raises after the move succeeded is a successful call
reporting `"Imported 0 images successfully"`, yet one new file was added to
the storage directory (and zero rows were inserted), so the reported count
does not equal the number of new files in storage. -/
theorem import_count_counterexample :
    (import_images insertFailEnv (some ["a.jpg"]) ⟨[], [], []⟩).snd
        = Except.ok (importMessage 0) ∧
      (import_images insertFailEnv (some ["a.jpg"]) ⟨[], [], []⟩).fst.storage
        = ["a.jpg"] ∧
      (import_images insertFailEnv (some ["a.jpg"]) ⟨[], [], []⟩).fst.rows
        = [] ∧
      (import_images insertFailEnv
          (some ["a.jpg"]) ⟨[], [], []⟩).fst.storage.length ≠ 0 := by
  refine ⟨rfl, by decide, by decide, by decide⟩

/-- Claim C4 (amended): on every successful import call, the count N in the
message `"Imported N images successfully"` equals the number of rows the
call inserted into the images table; it also equals the number of new files
added to the storage directory provided no per-file insert/commit failure
occurred after a successful move (without that proviso a moved file whose
insert raises is added to storage but not counted). -/
theorem import_count_matches_rows_and_storage (env : Env)
    (files : List String) (st : SysSt) :
    ∃ n, (import_images env (some files) st).snd
          = Except.ok (importMessage n) ∧
      (import_images env (some files) st).fst.rows.length
          = st.rows.length + n ∧
      ((∀ f, env.insertFail f = false) →
        (import_images env (some files) st).fst.storage.length
            = st.storage.length + n) := by
  refine ⟨(loopRun env (st.staging ++ files)
      ⟨st.storage, st.rows, 0⟩).imported_count, rfl, ?_, ?_⟩
  · have h := loopRun_rows_length env (st.staging ++ files)
      ⟨st.storage, st.rows, 0⟩
    simpa using h
  · intro hins
    have h := loopRun_storage_length env hins (st.staging ++ files)
      ⟨st.storage, st.rows, 0⟩
    simpa using h

/-- Environment for the C4 and C5 witnesses: MIME lookups answer
`image/jpeg`, no library call fails. -/
def allGoodEnv : Env :=
  ⟨fun _ => some "image/jpeg", fun _ => 100, fun _ => false, fun _ => false,
   fun _ => false, fun f => "id-" ++ f, 7⟩

/-- Witness for the amended C4 at a concrete input: importing `a.jpg` into an
empty system with no failures reports 1, inserts 1 row, adds 1 file. -/
theorem import_count_matches_rows_and_storage_witness :
    ∃ n, (import_images allGoodEnv (some ["a.jpg"]) ⟨[], [], []⟩).snd
          = Except.ok (importMessage n) ∧
      (import_images allGoodEnv (some ["a.jpg"]) ⟨[], [], []⟩).fst.rows.length
          = (⟨[], [], []⟩ : SysSt).rows.length + n ∧
      ((∀ f, Env.insertFail allGoodEnv f = false) →
        (import_images allGoodEnv
            (some ["a.jpg"]) ⟨[], [], []⟩).fst.storage.length
          = (⟨[], [], []⟩ : SysSt).storage.length + n) :=
  import_count_matches_rows_and_storage allGoodEnv ["a.jpg"] ⟨[], [], []⟩

/-- Claim C5 (confirmed): in the per-file accept step the move into storage
happens strictly before the metadata insert; when the insert/commit raises
after the move succeeded, the file stays in storage, no row is inserted for
it, and the counter does not advance — the per-file step is not atomic. -/
theorem move_precedes_insert_orphan (env : Env) (s : LoopSt) (f : String)
    (h1 : extOk f = true) (h2 : badName f = false) (h3 : f ∉ s.storage)
    (h4 : env.sizeFail f = false) (m : String) (h5 : env.sniff f = some m)
    (h6 : startsWithImage m = true) (h7 : env.moveFail f = false)
    (h8 : env.insertFail f = true) :
    (processFile env s f).storage = s.storage ++ [f] ∧
      (processFile env s f).rows = s.rows ∧
      (processFile env s f).imported_count = s.imported_count := by
  simp [processFile, h1, h2, h3, h4, h5, h6, h7, h8]

/-- Witness for C5 at a concrete input: `a.jpg` under an insert failure ends
up in storage with no row and an unchanged count. -/
theorem move_precedes_insert_orphan_witness :
    (extOk "a.jpg" = true ∧ badName "a.jpg" = false ∧
        "a.jpg" ∉ ([] : List String) ∧
        Env.sizeFail insertFailEnv "a.jpg" = false ∧
        Env.sniff insertFailEnv "a.jpg" = some "image/jpeg" ∧
        startsWithImage "image/jpeg" = true ∧
        Env.moveFail insertFailEnv "a.jpg" = false ∧
        Env.insertFail insertFailEnv "a.jpg" = true) ∧
      ((processFile insertFailEnv ⟨[], [], 0⟩ "a.jpg").storage
          = [] ++ ["a.jpg"] ∧
        (processFile insertFailEnv ⟨[], [], 0⟩ "a.jpg").rows = [] ∧
        (processFile insertFailEnv ⟨[], [], 0⟩ "a.jpg").imported_count = 0) :=
  ⟨⟨by decide, by decide, by decide, by decide, by decide, by decide,
    by decide, by decide⟩,
   move_precedes_insert_orphan insertFailEnv ⟨[], [], 0⟩ "a.jpg"
     (by decide) (by decide) (by decide) (by decide) "image/jpeg"
     (by decide) (by decide) (by decide) (by decide)⟩

/-- Claim C6 (confirmed): a filename already present in the storage directory
is never imported again by any later call: it stays in storage with
unchanged multiplicity (no overwrite, no rename-on-conflict adds a copy)
and no new row named after it is inserted. -/
theorem reimport_skips_existing_filename (env : Env)
    (dl : Option (List String)) (st : SysSt) (f : String)
    (h : f ∈ st.storage) :
    f ∈ (import_images env dl st).fst.storage ∧
      (import_images env dl st).fst.storage.count f = st.storage.count f ∧
      (import_images env dl st).fst.rows.filter (fun r => r.name == f)
        = st.rows.filter (fun r => r.name == f) := by
  cases dl with
  | none => exact ⟨h, rfl, rfl⟩
  | some files =>
    exact loopRun_preserve_mem env f (st.staging ++ files)
      ⟨st.storage, st.rows, 0⟩ h

/-- Witness for C6: re-importing `a.jpg` when storage already holds it
changes nothing about it. -/
theorem reimport_skips_existing_filename_witness :
    "a.jpg" ∈ ["a.jpg"] ∧
      ("a.jpg" ∈ (import_images allGoodEnv (some ["a.jpg"])
            ⟨["a.jpg"], [], []⟩).fst.storage ∧
        (import_images allGoodEnv (some ["a.jpg"])
            ⟨["a.jpg"], [], []⟩).fst.storage.count "a.jpg"
          = (["a.jpg"] : List String).count "a.jpg" ∧
        (import_images allGoodEnv (some ["a.jpg"])
            ⟨["a.jpg"], [], []⟩).fst.rows.filter (fun r => r.name == "a.jpg")
          = ([] : List ImageRow).filter (fun r => r.name == "a.jpg")) :=
  ⟨by decide,
   reimport_skips_existing_filename allGoodEnv (some ["a.jpg"])
     ⟨["a.jpg"], [], []⟩ "a.jpg" (by decide)⟩

/-- Claim C7 (confirmed): a staged file whose name does not end with one of
`.jpg`, `.jpeg`, `.png`, `.gif` (case-insensitively) is never moved into
storage and never produces a row: its multiplicity in storage and the rows
named after it are unchanged by the import call. -/
theorem import_never_accepts_bad_extension (env : Env)
    (dl : Option (List String)) (st : SysSt) (f : String)
    (h : extOk f = false) :
    (import_images env dl st).fst.storage.count f = st.storage.count f ∧
      (import_images env dl st).fst.rows.filter (fun r => r.name == f)
        = st.rows.filter (fun r => r.name == f) := by
  cases dl with
  | none => exact ⟨rfl, rfl⟩
  | some files =>
    have hskip : ∀ s, processFile env s f = s :=
      fun s => processFile_skip_extBad env s f h
    exact loopRun_preserve_skip env f hskip (st.staging ++ files)
      ⟨st.storage, st.rows, 0⟩

/-- Witness for C7: `b.txt` is never accepted. -/
theorem import_never_accepts_bad_extension_witness :
    extOk "b.txt" = false ∧
      ((import_images allGoodEnv (some ["b.txt"])
            ⟨[], [], []⟩).fst.storage.count "b.txt"
          = (⟨[], [], []⟩ : SysSt).storage.count "b.txt" ∧
        (import_images allGoodEnv (some ["b.txt"])
            ⟨[], [], []⟩).fst.rows.filter (fun r => r.name == "b.txt")
          = (⟨[], [], []⟩ : SysSt).rows.filter (fun r => r.name == "b.txt")) :=
  ⟨by decide,
   import_never_accepts_bad_extension allGoodEnv (some ["b.txt"])
     ⟨[], [], []⟩ "b.txt" (by decide)⟩

/-- Claim C8 (confirmed): a per-file failure never aborts the batch or the
request.  Whatever the per-file failure pattern in the environment, a call
whose fetch succeeded returns the success message (no per-file exception
escapes the inner `try` of lines 82-102), and the walk over
`fs1 ++ f :: fs2` always continues past `f` into `fs2`, from exactly the
state that the possibly failing step for `f` left behind. -/
theorem per_file_failure_never_aborts_batch (env : Env) (st : SysSt)
    (fs1 : List String) (f : String) (fs2 : List String) :
    (∃ n, (import_images env (some (fs1 ++ f :: fs2)) st).snd
        = Except.ok (importMessage n)) ∧
      ∀ s : LoopSt,
        loopRun env (fs1 ++ f :: fs2) s
          = loopRun env fs2 (processFile env (loopRun env fs1 s) f) := by
  constructor
  · exact ⟨(loopRun env (st.staging ++ (fs1 ++ f :: fs2))
      ⟨st.storage, st.rows, 0⟩).imported_count, rfl⟩
  · intro s
    simp [loopRun, List.foldl_append]

/-- Claim C9 (confirmed): no operation ever updates or deletes an existing
row of the images table.  The import call only appends rows (every
pre-existing row persists verbatim, in place), and the list and get
handlers leave the table exactly as it was. -/
theorem images_table_insert_only (env : Env) (dl : Option (List String))
    (st : SysSt) (rows : List ImageRow) (image_id : String) :
    (∃ t, (import_images env dl st).fst.rows = st.rows ++ t) ∧
      (list_images rows).fst = rows ∧
      (get_image rows image_id).fst = rows := by
  refine ⟨?_, rfl, ?_⟩
  · cases dl with
    | none => exact ⟨[], (List.append_nil _).symm⟩
    | some files =>
      exact loopRun_rows_append env (st.staging ++ files)
        ⟨st.storage, st.rows, 0⟩
  · cases hx : get_image_body rows image_id <;> simp [get_image, hx]

/-- Claim C10 (confirmed): the staging area is the fixed path `"downloads"`
shared by every request; a call whose fetch returns no result raises and
leaves the whole state — the staging directory included — untouched
(`shutil.rmtree` on line 104 is never reached), and a file left behind in
staging is enumerated by the walk of the next call: if it passes every check
and no library call fails for it, that next successful call moves it into
storage. -/
theorem staging_fixed_and_survives_failed_fetch (env : Env) (st : SysSt)
    (newFiles : List String) (f : String)
    (h1 : f ∈ st.staging) (h2 : extOk f = true) (h3 : badName f = false)
    (h4 : env.sizeFail f = false) (h5 : sniffOk env f = true)
    (h6 : env.moveFail f = false) :
    temp_dir = "downloads" ∧
      (import_images env none st).fst = st ∧
      (∃ e, (import_images env none st).snd = Except.error e) ∧
      f ∈ (import_images env (some newFiles) st).fst.storage := by
  refine ⟨rfl, rfl, ⟨_, rfl⟩, ?_⟩
  have hmem : f ∈ st.staging ++ newFiles := List.mem_append.mpr (Or.inl h1)
  exact loopRun_good_mem env f h2 h3 h4 h5 h6 (st.staging ++ newFiles)
    ⟨st.storage, st.rows, 0⟩ hmem

/-- Witness for C10: `left.jpg` sits in staging from an earlier failed call;
the failed call leaves the state alone, and the next successful call (here
downloading nothing new) imports it. -/
theorem staging_fixed_and_survives_failed_fetch_witness :
    ("left.jpg" ∈ ["left.jpg"] ∧ extOk "left.jpg" = true ∧
        badName "left.jpg" = false ∧
        Env.sizeFail allGoodEnv "left.jpg" = false ∧
        sniffOk allGoodEnv "left.jpg" = true ∧
        Env.moveFail allGoodEnv "left.jpg" = false) ∧
      (temp_dir = "downloads" ∧
        (import_images allGoodEnv none ⟨[], [], ["left.jpg"]⟩).fst
          = ⟨[], [], ["left.jpg"]⟩ ∧
        (∃ e, (import_images allGoodEnv none ⟨[], [], ["left.jpg"]⟩).snd
          = Except.error e) ∧
        "left.jpg" ∈ (import_images allGoodEnv (some [])
          ⟨[], [], ["left.jpg"]⟩).fst.storage) :=
  ⟨⟨by decide, by decide, by decide, by decide, by decide, by decide⟩,
   staging_fixed_and_survives_failed_fetch allGoodEnv ⟨[], [], ["left.jpg"]⟩
     [] "left.jpg" (by decide) (by decide) (by decide) (by decide)
     (by decide) (by decide)⟩
